import Mathlib

/-!
Verification development for the Agent Angus orchestration core
(`src/tools/youtube_tools.py`, `src/tools/ai_tools.py`, and the batch
drivers in `src/agents/angus_coral_client.py`).

Python strings are modelled as Lean `String`; the string helpers below
re-implement the Python primitives (`lower`, `strip`, `split(',')`,
substring membership, `startswith`) over `String.data` so that every
definition is executable and kernel-reducible.  Python `None`-able values
are `Option`; Python truthiness of an optional string is `pyTruthy`.
External effects (YouTube client calls, database writes) are modelled by
explicit oracle values for results and by emitted effect lists for writes.
-/

namespace Angus

/-- ASCII lower-casing of one character, the fragment of Python `str.lower`
relevant to the ASCII keyword tables used by the source. -/
def charLower (c : Char) : Char :=
  if 'A' ≤ c ∧ c ≤ 'Z' then Char.ofNat (c.toNat + 32) else c

/-- Python `str.lower()` (ASCII fragment). -/
def strLower (s : String) : String := ⟨s.data.map charLower⟩

/-- Does `needle` occur as a contiguous infix of the character list? -/
def isSubList (needle : List Char) : List Char → Bool
  | [] => needle.isEmpty
  | c :: rest => List.isPrefixOf needle (c :: rest) || isSubList needle rest

/-- Python `needle in hay` on strings (substring containment). -/
def containsSub (hay needle : String) : Bool := isSubList needle.data hay.data

/-- Python `s.startswith(p)`. -/
def startsWithStr (s p : String) : Bool := List.isPrefixOf p.data s.data

/-- Helper for `splitComma`: accumulates the current (reversed) chunk. -/
def splitOnCommaAux (cur : List Char) : List Char → List (List Char)
  | [] => [cur.reverse]
  | c :: rest => if c = ',' then cur.reverse :: splitOnCommaAux [] rest
                 else splitOnCommaAux (c :: cur) rest

/-- Python `s.split(',')`. -/
def splitComma (s : String) : List String :=
  (splitOnCommaAux [] s.data).map (fun l => ⟨l⟩)

/-- Python `s.strip()`. -/
def trimStr (s : String) : String :=
  ⟨((s.data.dropWhile Char.isWhitespace).reverse.dropWhile Char.isWhitespace).reverse⟩

/-- Python truthiness of an optional string (`None` and `""` are falsy). -/
def pyTruthy : Option String → Bool
  | none => false
  | some s => !(s == "")

/-- Python `a or b` for strings (`a` if truthy, else `b`). -/
def pyOr (a b : String) : String := if a = "" then b else a

/-- A row of the `songs` table as consumed by the tools
(`song_data.get(...)` fields; `none` models an absent/`None` field). -/
structure SongRecord where
  title : Option String
  style : Option String
  lyrics : Option String
  gpt_description : Option String
  video_url : Option String
deriving DecidableEq, Repr

/-- Outcome of `youtube_client.upload_video`: either it returns a value
(`None` or a string id, possibly the sentinel `"URL_EXPIRED"`), or it
raises an exception carrying message `msg`. -/
inductive UploadOutcome where
  | returns (r : Option String)
  | raises (msg : String)
deriving DecidableEq, Repr

/-- Externally visible effects of the upload tool: the YouTube upload call
itself, and `update_song_status` writes (song id, status, optional video id). -/
inductive Effect where
  | uploadCall (url title description : String) (tags : List String)
  | statusUpdate (song status : String) (video : Option String)
deriving DecidableEq, Repr

/-- The quota test of `upload_song_to_youtube`
(`"uploadLimitExceeded" in str(e) or "The user has exceeded ..." in str(e)`). -/
def isQuotaMsg (m : String) : Bool :=
  containsSub m "uploadLimitExceeded" ||
    containsSub m "The user has exceeded the number of videos they may upload"

/-- `src/tools/youtube_tools.py`, `upload_song_to_youtube`.
Arguments `title`, `description`, `tags` are the tool's optional parameters
(Python default `None`); `lookup` is the result of `get_song_details`
(`none` models both a falsy result and an `'error'`-keyed dict); `up` is the
outcome of the underlying `upload_video` call.  Returns the tool's string
result together with the list of emitted external effects, in order. -/
def upload_song_to_youtube (song_id : String) (title description : Option String)
    (tags : Option (List String)) (lookup : Option SongRecord)
    (up : UploadOutcome) : String × List Effect :=
  match lookup with
  | none => ("Error: Could not retrieve song data for " ++ song_id, [])
  | some song =>
    if !(pyTruthy song.video_url) then
      ("Error: No video URL found for song " ++ song_id, [])
    else
      let video_url := song.video_url.getD ""
      let upload_title := pyOr (title.getD "") (song.title.getD "Untitled Song")
      let desc0 := pyOr (description.getD "") (song.gpt_description.getD "")
      let upload_description :=
        if desc0 = "" ∧ pyTruthy song.lyrics then
          "Lyrics:\n\n" ++ song.lyrics.getD ""
        else desc0
      let tags0 := tags.getD []
      let upload_tags :=
        if tags0 = [] ∧ pyTruthy song.style then
          (splitComma (song.style.getD "")).map trimStr
        else tags0
      let callEff := Effect.uploadCall video_url upload_title upload_description upload_tags
      match up with
      | .raises msg =>
        if isQuotaMsg msg then
          ("Error: YouTube upload limit exceeded",
            [callEff, Effect.statusUpdate song_id "failed" none])
        else
          ("Error uploading song " ++ song_id ++ ": " ++ msg, [callEff])
      | .returns r =>
        if r = some "URL_EXPIRED" then
          ("Error: Video URL expired for song " ++ song_id,
            [callEff, Effect.statusUpdate song_id "url_expired" none])
        else if pyTruthy r then
          (r.getD "", [callEff, Effect.statusUpdate song_id "uploaded" (some (r.getD ""))])
        else
          ("Error: Upload failed for song " ++ song_id,
            [callEff, Effect.statusUpdate song_id "failed" none])

/-- The status updates among a list of effects, as (song, status, video id). -/
def statusUpdatesOf : List Effect → List (String × String × Option String)
  | [] => []
  | Effect.statusUpdate s st v :: rest => (s, st, v) :: statusUpdatesOf rest
  | Effect.uploadCall _ _ _ _ :: rest => statusUpdatesOf rest

/-- The upload calls among a list of effects (url, title, description, tags). -/
def uploadCallsOf : List Effect → List (String × String × String × List String)
  | [] => []
  | Effect.uploadCall u t d tg :: rest => (u, t, d, tg) :: uploadCallsOf rest
  | Effect.statusUpdate _ _ _ :: rest => uploadCallsOf rest

/-- `src/agents/angus_coral_client.py`, `upload_workflow`: iterates over the
pending songs and calls `upload_song_to_youtube` for each one, catching any
per-song exception and never breaking out of the loop.  We record the
concatenation of the per-song effect traces, in batch order.  (The driver's
own `update_song_status` call on line 86 is unreachable for string results:
`'video_id' in result` is a substring test on the returned string, and when
it ever held, `result['video_id']` would raise `TypeError`, caught by the
per-song handler; so the driver adds no effects of its own.) -/
def upload_workflow (ids : List String) (lookup : String → Option SongRecord)
    (up : String → UploadOutcome) : List Effect :=
  (ids.map (fun i => (upload_song_to_youtube i none none none (lookup i) (up i)).2)).flatten

/-! ## AI tools (`src/tools/ai_tools.py`) -/

/-- Result dict of `analyze_comment_sentiment`; the exception path omits the
`confidence` key, modelled by `none`. -/
structure SentimentResult where
  comment : String
  sentiment : String
  confidence : Option ℚ
deriving Repr

/-- The `positive_words` table of `analyze_comment_sentiment`. -/
def positive_words : List String :=
  ["good", "great", "awesome", "love", "amazing", "fantastic", "excellent"]

/-- The `negative_words` table of `analyze_comment_sentiment`. -/
def negative_words : List String :=
  ["bad", "terrible", "hate", "awful", "horrible", "worst", "sucks"]

/-- `src/tools/ai_tools.py`, `analyze_comment_sentiment`, normal path
(the `try` body, which is pure and cannot fail on a string input).
Python floats are modelled as exact rationals. -/
def analyze_comment_sentiment (comment_text : String) : SentimentResult :=
  let comment_lower := strLower comment_text
  let positive_count := (positive_words.filter (fun w => containsSub comment_lower w)).length
  let negative_count := (negative_words.filter (fun w => containsSub comment_lower w)).length
  if negative_count < positive_count then
    ⟨comment_text, "positive",
      some (min 0.9 (0.5 + (((positive_count : ℚ) - negative_count) * 0.1)))⟩
  else if positive_count < negative_count then
    ⟨comment_text, "negative",
      some (min 0.9 (0.5 + (((negative_count : ℚ) - positive_count) * 0.1)))⟩
  else
    ⟨comment_text, "neutral", some 0.5⟩

/-- `src/tools/ai_tools.py`, `analyze_comment_sentiment`, exception path
(lines 185–192): the caught exception message `msg` produces a result dict
with `sentiment = "error"` and no `confidence` key. -/
def analyze_comment_sentiment_onError (comment_text _msg : String) : SentimentResult :=
  ⟨comment_text, "error", none⟩

/-- `src/tools/ai_tools.py`, `generate_song_description`. -/
def generate_song_description (song : SongRecord) : String :=
  let style := song.style.getD ""
  let lyrics := song.lyrics.getD ""
  let gpt_description := song.gpt_description.getD ""
  if gpt_description ≠ "" then gpt_description
  else
    let base := if style ≠ "" then "A " ++ style ++ " song" else "A musical composition"
    let parts :=
      if lyrics ≠ "" then
        let lyrics_snippet :=
          if 200 < lyrics.length then ⟨lyrics.data.take 200⟩ ++ "..." else lyrics
        [base, "\n\nLyrics:\n" ++ lyrics_snippet]
      else [base]
    String.intercalate " " parts

/-- The raw tag stream accumulated by `suggest_video_tags` before
de-duplication: style-derived tags, the generic tags, and the AI tags. -/
def rawTags (song : SongRecord) : List String :=
  let style := song.style.getD ""
  let styleTags :=
    if style ≠ "" then ((splitComma style).map trimStr).filter (fun t => t ≠ "")
    else []
  let base := styleTags ++ ["music", "song", "audio"]
  let titleLower := strLower (song.title.getD "")
  if containsSub titleLower "ai" || containsSub titleLower "generated" then
    base ++ ["ai music", "generated music"]
  else base

/-- First-occurrence de-duplication, the semantics of Python
`list(dict.fromkeys(tags))`. -/
def dedupFirst : List String → List String
  | [] => []
  | x :: xs => x :: dedupFirst (xs.filter (fun y => y ≠ x))
termination_by l => l.length
decreasing_by
  simp only [List.length_cons]
  exact Nat.lt_succ_of_le (List.length_filter_le _ xs)

/-- `src/tools/ai_tools.py`, `suggest_video_tags`, normal path:
`list(dict.fromkeys(tags))[:10]`. -/
def suggest_video_tags (song : SongRecord) : List String :=
  (dedupFirst (rawTags song)).take 10

/-- `src/tools/ai_tools.py`, `suggest_video_tags`, exception path
(line 281): the fallback tag list. -/
def suggest_video_tags_fallback : List String := ["music", "song"]

/-! ## Comment processing (`src/tools/youtube_tools.py`) -/

/-- A comment dict as returned by `youtube_client.fetch_comments`. -/
structure Comment where
  comment_id : String
  content : String
  has_our_reply : Bool
deriving DecidableEq, Repr

/-- `src/tools/youtube_tools.py`, `fetch_youtube_comments`: returns the
client's comment list, or `[]` when the underlying fetch raises. -/
def fetch_youtube_comments : Except String (List Comment) → List Comment
  | .ok comments => comments
  | .error _ => []

/-- Outcome of the underlying `generate_response` call inside
`generate_comment_response`: a returned value (`none` models `None`/falsy)
or a raised exception. -/
inductive GenOutcome where
  | returns (t : Option String)
  | raises (msg : String)
deriving DecidableEq, Repr

/-- `src/tools/ai_tools.py`, `generate_comment_response`: returns the
generated text when truthy, the fixed failure string when falsy, and the
formatted error message when the call raises.  Note every branch returns a
non-empty string. -/
def generate_comment_response (g : GenOutcome) : String :=
  match g with
  | .returns t => if pyTruthy t then t.getD "" else "Failed to generate response"
  | .raises msg => "Error generating comment response: " ++ msg

/-- Outcome of the underlying `reply_to_comment` call. -/
inductive ReplyOutcome where
  | returns (r : Option String)
  | raises (msg : String)
deriving DecidableEq, Repr

/-- `src/tools/youtube_tools.py`, `reply_to_youtube_comment`. -/
def reply_to_youtube_comment (comment_id : String) (r : ReplyOutcome) : String :=
  match r with
  | .returns rid =>
    if pyTruthy rid then rid.getD ""
    else "Error: Failed to reply to comment " ++ comment_id
  | .raises msg => "Error replying to comment " ++ comment_id ++ ": " ++ msg

/-- The success test of the reply in `process_video_comments`
(`if reply_id and not reply_id.startswith("Error")`). -/
def replySucceeded (reply_id : String) : Bool :=
  !(reply_id == "") && !(startsWithStr reply_id "Error")

/-- Modelled from the spec: `store_feedback` and `get_existing_feedback`
live in `tools/supabase_tools.py`, which is not under `src/`.  Per spec
§4.1, `saveFeedback` "fails with `Conflict` if a record for that (videoId,
commentId) already exists", and any store operation may fail with
`StoreUnavailable` (modelled by the per-call `available` flag).  The
feedback table for one song is modelled as the list of comment ids already
recorded; `none` models a raised exception, `some fb` the updated table. -/
def store_feedback (available : Bool) (fb : List String) (comment_id : String) :
    Option (List String) :=
  if available && !(fb.contains comment_id) then some (fb ++ [comment_id]) else none

/-- Per-comment environment for one `process_video_comments` run: whether
the feedback store is reachable for this comment's insert, and the outcomes
of the response-generation and reply calls. -/
structure CEnv where
  storeOk : Bool
  gen : GenOutcome
  rep : ReplyOutcome

/-- One issued `reply_to_youtube_comment` call: the target comment id and
whether the call satisfied the success test. -/
structure ReplyCall where
  cid : String
  success : Bool
deriving DecidableEq, Repr

/-- The per-comment body of the loop in `process_video_comments`
(lines 283–315): the two skip guards, then `store_feedback`, response
generation and the reply, with the per-comment `try/except` catching a
`store_feedback` failure.  `existing` is the `existing_comment_ids` set
computed once before the loop; `fb` is the live feedback table; returns the
updated table, the updated `processed_count`, and the reply calls issued. -/
def processStep (existing : List String) (env : String → CEnv) (c : Comment)
    (fb : List String) (count : Nat) : List String × Nat × List ReplyCall :=
  if c.comment_id ∈ existing then (fb, count, [])
  else if c.has_our_reply then (fb, count, [])
  else
    match store_feedback (env c.comment_id).storeOk fb c.comment_id with
    | none => (fb, count, [])
    | some fb1 =>
      let response_text := generate_comment_response (env c.comment_id).gen
      if response_text ≠ "" then
        let reply_id := reply_to_youtube_comment c.comment_id (env c.comment_id).rep
        if replySucceeded reply_id then (fb1, count + 1, [⟨c.comment_id, true⟩])
        else (fb1, count, [⟨c.comment_id, false⟩])
      else (fb1, count, [])

/-- The comment loop of `process_video_comments`, including the
`processed_count >= max_replies` break at the top of each iteration. -/
def processGo (existing : List String) (env : String → CEnv) (max_replies : Nat) :
    List Comment → List String → Nat → Nat × List String × List ReplyCall
  | [], fb, count => (count, fb, [])
  | c :: rest, fb, count =>
    if max_replies ≤ count then (count, fb, [])
    else
      let s := processStep existing env c fb count
      let r := processGo existing env max_replies rest s.1 s.2.1
      (r.1, r.2.1, s.2.2 ++ r.2.2)

/-- `src/tools/youtube_tools.py`, `process_video_comments`, for a resolved
song id: `db` is the feedback table for the song (from which
`existing_comment_ids` is computed), `comments` the fetched comment list.
Returns `processed_count`, the final feedback table, and the reply calls
issued, in order. -/
def process_video_comments (db : List String) (comments : List Comment)
    (env : String → CEnv) (max_replies : Nat) : Nat × List String × List ReplyCall :=
  processGo db env max_replies comments db 0

/-- One workflow run's inputs: the fetched comments, the per-comment
environment, and the `max_replies` budget. -/
structure RunInput where
  comments : List Comment
  env : String → CEnv
  max_replies : Nat

/-- A sequence of `process_video_comments` runs threading the persistent
feedback table; returns the final table and all reply calls issued. -/
def runsAll : List RunInput → List String → List String × List ReplyCall
  | [], db => (db, [])
  | r :: rest, db =>
    let p := process_video_comments db r.comments r.env r.max_replies
    let q := runsAll rest p.2.1
    (q.1, p.2.2 ++ q.2)

/-- Number of reply calls issued for a given comment id. -/
def replyCallCount (cid : String) (calls : List ReplyCall) : Nat :=
  (calls.filter (fun e => e.cid = cid)).length

/-! ## Helper lemmas -/

theorem dedupFirst_sublist (l : List String) : (dedupFirst l).Sublist l := by
  induction l using dedupFirst.induct with
  | case1 => simp [dedupFirst]
  | case2 x xs ih =>
    rw [dedupFirst]
    exact List.Sublist.cons₂ x (ih.trans (List.filter_sublist xs))

theorem dedupFirst_nodup (l : List String) : (dedupFirst l).Nodup := by
  induction l using dedupFirst.induct with
  | case1 => simp [dedupFirst]
  | case2 x xs ih =>
    rw [dedupFirst]
    refine List.Nodup.cons (fun hx => ?_) ih
    have hx2 := (dedupFirst_sublist _).subset hx
    simp at hx2

theorem generate_comment_response_ne_empty (g : GenOutcome) :
    generate_comment_response g ≠ "" := by
  cases g with
  | returns t =>
    cases t with
    | none => simp [generate_comment_response, pyTruthy]
    | some s =>
      by_cases hs : s = ""
      · subst hs; simp [generate_comment_response, pyTruthy]
      · simp [generate_comment_response, pyTruthy, hs]
  | raises m =>
    simp only [generate_comment_response]
    intro h
    have h2 : ("Error generating comment response: ").data ++ m.data = [] := by
      have h3 := congrArg String.data h
      simp only [String.data_append] at h3
      exact h3
    have h4 := (List.append_eq_nil.mp h2).1
    exact absurd h4 (by decide)

theorem store_feedback_some {av : Bool} {fb fb1 : List String} {cid : String}
    (h : store_feedback av fb cid = some fb1) :
    cid ∉ fb ∧ fb1 = fb ++ [cid] := by
  unfold store_feedback at h
  split at h
  · rename_i hc
    simp only [Bool.and_eq_true, Bool.not_eq_true'] at hc
    refine ⟨by simpa using hc.2, by injection h with h; exact h.symm⟩
  · exact absurd h (by simp)

theorem processStep_cases (existing : List String) (env : String → CEnv) (c : Comment)
    (fb : List String) (count : Nat) :
    processStep existing env c fb count = (fb, count, []) ∨
    (c.comment_id ∉ fb ∧ ∃ b : Bool,
      processStep existing env c fb count =
        (fb ++ [c.comment_id], (if b then count + 1 else count), [⟨c.comment_id, b⟩])) := by
  unfold processStep
  split
  · exact Or.inl rfl
  split
  · exact Or.inl rfl
  rcases hsf : store_feedback (env c.comment_id).storeOk fb c.comment_id with _ | fb1
  · exact Or.inl rfl
  · obtain ⟨hnm, hfb⟩ := store_feedback_some hsf
    subst hfb
    refine Or.inr ⟨hnm, replySucceeded (reply_to_youtube_comment c.comment_id (env c.comment_id).rep), ?_⟩
    dsimp only
    rw [if_pos (generate_comment_response_ne_empty (env c.comment_id).gen)]
    split
    · rename_i hr; simp [hr]
    · rename_i hr
      simp only [Bool.not_eq_true] at hr
      simp [hr]

theorem processStep_skip (existing : List String) (env : String → CEnv) (c : Comment)
    (fb : List String) (count : Nat)
    (hskip : c.comment_id ∈ existing ∨ c.has_our_reply = true) :
    processStep existing env c fb count = (fb, count, []) := by
  rcases hskip with h | h
  · unfold processStep; rw [if_pos h]
  · by_cases h1 : c.comment_id ∈ existing
    · unfold processStep; rw [if_pos h1]
    · unfold processStep; rw [if_neg h1, if_pos h]

theorem replyCallCount_append (cid : String) (a b : List ReplyCall) :
    replyCallCount cid (a ++ b) = replyCallCount cid a + replyCallCount cid b := by
  simp [replyCallCount, List.filter_append]

theorem replyCallCount_single (cid cid2 : String) (b : Bool) :
    replyCallCount cid [(⟨cid2, b⟩ : ReplyCall)] = if cid2 = cid then 1 else 0 := by
  by_cases h : cid2 = cid
  · subst h; simp [replyCallCount]
  · simp [replyCallCount, h]

/-- Invariant of the comment loop: the feedback table only grows, any
comment id receives at most one reply call, a comment id already in the
table receives none, and a comment id that received a reply call is in the
final table. -/
theorem processGo_inv (existing : List String) (env : String → CEnv)
    (max_replies : Nat) (cid : String) :
    ∀ (cs : List Comment) (fb : List String) (count : Nat),
    (∀ x ∈ fb, x ∈ (processGo existing env max_replies cs fb count).2.1) ∧
    replyCallCount cid (processGo existing env max_replies cs fb count).2.2 ≤ 1 ∧
    (cid ∈ fb → replyCallCount cid (processGo existing env max_replies cs fb count).2.2 = 0) ∧
    (1 ≤ replyCallCount cid (processGo existing env max_replies cs fb count).2.2 →
      cid ∈ (processGo existing env max_replies cs fb count).2.1) := by
  intro cs
  induction cs with
  | nil =>
    intro fb count
    simp [processGo, replyCallCount]
  | cons c rest ih =>
    intro fb count
    by_cases hbr : max_replies ≤ count
    · simp [processGo, hbr, replyCallCount]
    · have hgo : processGo existing env max_replies (c :: rest) fb count =
          (let s := processStep existing env c fb count
           let r := processGo existing env max_replies rest s.1 s.2.1
           (r.1, r.2.1, s.2.2 ++ r.2.2)) := by
        rw [processGo, if_neg hbr]
      rcases processStep_cases existing env c fb count with hs | ⟨hnm, b, hs⟩
      · rw [hgo]
        simp only [hs]
        have ih2 := ih fb count
        simpa [replyCallCount_append] using ih2
      · rw [hgo]
        simp only [hs]
        have ih2 := ih (fb ++ [c.comment_id]) (if b then count + 1 else count)
        simp only [replyCallCount_append, replyCallCount_single]
        by_cases hc : c.comment_id = cid
        · subst hc
          have hrest0 : replyCallCount c.comment_id
              (processGo existing env max_replies rest (fb ++ [c.comment_id])
                (if b then count + 1 else count)).2.2 = 0 :=
            ih2.2.2.1 (by simp)
          refine ⟨fun x hx => ih2.1 x (by simp [hx]), ?_, ?_, ?_⟩
          · simp [hrest0]
          · intro hmem; exact absurd hmem hnm
          · intro _; exact ih2.1 c.comment_id (by simp)
        · simp only [if_neg hc, Nat.zero_add]
          refine ⟨fun x hx => ih2.1 x (by simp [hx]), ih2.2.1, ?_, ih2.2.2.2⟩
          intro hmem
          exact ih2.2.2.1 (by simp [hmem])

/-- Count bookkeeping of the comment loop: the final `processed_count`
equals the starting count plus the number of successful reply calls
issued, and it never exceeds `max_replies` when the starting count does
not. -/
theorem processGo_count (existing : List String) (env : String → CEnv)
    (max_replies : Nat) :
    ∀ (cs : List Comment) (fb : List String) (count : Nat),
    (processGo existing env max_replies cs fb count).1 =
      count + ((processGo existing env max_replies cs fb count).2.2.filter
        (fun e => e.success)).length ∧
    (count ≤ max_replies → (processGo existing env max_replies cs fb count).1 ≤ max_replies) := by
  intro cs
  induction cs with
  | nil =>
    intro fb count
    simp [processGo]
  | cons c rest ih =>
    intro fb count
    by_cases hbr : max_replies ≤ count
    · simp [processGo, hbr]
    · have hgo : processGo existing env max_replies (c :: rest) fb count =
          (let s := processStep existing env c fb count
           let r := processGo existing env max_replies rest s.1 s.2.1
           (r.1, r.2.1, s.2.2 ++ r.2.2)) := by
        rw [processGo, if_neg hbr]
      rcases processStep_cases existing env c fb count with hs | ⟨_, b, hs⟩
      · rw [hgo]
        simp only [hs]
        exact ih fb count
      · rw [hgo]
        simp only [hs]
        have ih2 := ih (fb ++ [c.comment_id]) (if b then count + 1 else count)
        cases b with
        | false =>
          simpa [List.filter_append] using ih2
        | true =>
          simp only [if_true] at ih2 ⊢
          constructor
          · simp only [List.filter_append, List.length_append, ih2.1]
            simp
            omega
          · intro _
            exact ih2.2 (by omega)

/-- `process_video_comments` never issues more than one reply call per
comment id in one run, issues none for ids already recorded, records every
id it replies to, and only grows the feedback table. -/
theorem process_video_comments_inv (db : List String) (comments : List Comment)
    (env : String → CEnv) (max_replies : Nat) (cid : String) :
    (∀ x ∈ db, x ∈ (process_video_comments db comments env max_replies).2.1) ∧
    replyCallCount cid (process_video_comments db comments env max_replies).2.2 ≤ 1 ∧
    (cid ∈ db → replyCallCount cid (process_video_comments db comments env max_replies).2.2 = 0) ∧
    (1 ≤ replyCallCount cid (process_video_comments db comments env max_replies).2.2 →
      cid ∈ (process_video_comments db comments env max_replies).2.1) :=
  processGo_inv db env max_replies cid comments db 0

/-- Across any sequence of runs threading the feedback table, each comment
id receives at most one reply call, and none at all if it was already
recorded before the first run. -/
theorem runsAll_at_most_once (cid : String) :
    ∀ (rs : List RunInput) (db : List String),
    replyCallCount cid (runsAll rs db).2 ≤ 1 ∧
    (cid ∈ db → replyCallCount cid (runsAll rs db).2 = 0) := by
  intro rs
  induction rs with
  | nil =>
    intro db
    simp [runsAll, replyCallCount]
  | cons r rest ih =>
    intro db
    have hinv := process_video_comments_inv db r.comments r.env r.max_replies cid
    have ihr := ih (process_video_comments db r.comments r.env r.max_replies).2.1
    constructor
    · show replyCallCount cid
        ((process_video_comments db r.comments r.env r.max_replies).2.2 ++
          (runsAll rest (process_video_comments db r.comments r.env r.max_replies).2.1).2) ≤ 1
      rw [replyCallCount_append]
      by_cases h1 : 1 ≤ replyCallCount cid
          (process_video_comments db r.comments r.env r.max_replies).2.2
      · have hz := ihr.2 (hinv.2.2.2 h1)
        omega
      · have := ihr.1
        omega
    · intro hdb
      show replyCallCount cid
        ((process_video_comments db r.comments r.env r.max_replies).2.2 ++
          (runsAll rest (process_video_comments db r.comments r.env r.max_replies).2.1).2) = 0
      rw [replyCallCount_append]
      have h0 := hinv.2.2.1 hdb
      have hz := ihr.2 (hinv.1 cid hdb)
      omega

/-- The quota branch of `upload_song_to_youtube`: a raised message matching
the quota test yields the quota error string and a single status update to
`failed`, after the upload call. -/
theorem upload_song_quota (song_id : String) (title description : Option String)
    (tags : Option (List String)) (rec : SongRecord) (m : String)
    (hurl : pyTruthy rec.video_url = true) (hq : isQuotaMsg m = true) :
    ∃ u t d tg,
      upload_song_to_youtube song_id title description tags (some rec) (.raises m) =
        ("Error: YouTube upload limit exceeded",
          [Effect.uploadCall u t d tg, Effect.statusUpdate song_id "failed" none]) := by
  unfold upload_song_to_youtube
  dsimp only
  rw [hurl]
  simp only [Bool.not_true, Bool.false_eq_true, if_false, hq, if_true]
  exact ⟨_, _, _, _, rfl⟩

/-- Whenever the song record is retrievable and its video URL truthy, the
tool's first effect is the upload call with that URL, whatever the upload
outcome. -/
theorem upload_song_call_head (song_id : String) (title description : Option String)
    (tags : Option (List String)) (rec : SongRecord) (up : UploadOutcome)
    (hurl : pyTruthy rec.video_url = true) :
    ∃ t d tg rest,
      (upload_song_to_youtube song_id title description tags (some rec) up).2 =
        Effect.uploadCall (rec.video_url.getD "") t d tg :: rest := by
  unfold upload_song_to_youtube
  dsimp only
  rw [hurl]
  simp only [Bool.not_true, Bool.false_eq_true, if_false]
  cases up with
  | raises m =>
    by_cases hq : isQuotaMsg m = true
    · simp only [hq, if_true]
      exact ⟨_, _, _, _, rfl⟩
    · simp only [hq, if_false]
      exact ⟨_, _, _, _, rfl⟩
  | returns r =>
    by_cases he : r = some "URL_EXPIRED"
    · simp only [he, if_pos rfl]
      exact ⟨_, _, _, _, rfl⟩
    · by_cases ht : pyTruthy r = true
      · simp only [if_neg he, ht, if_true]
        exact ⟨_, _, _, _, rfl⟩
      · simp only [if_neg he, ht, Bool.false_eq_true, if_false]
        exact ⟨_, _, _, _, rfl⟩

/-- Per-song effects embed into the batch workflow's effect trace. -/
theorem mem_upload_workflow (ids : List String) (lookup : String → Option SongRecord)
    (up : String → UploadOutcome) (i : String) (hi : i ∈ ids) (e : Effect)
    (he : e ∈ (upload_song_to_youtube i none none none (lookup i) (up i)).2) :
    e ∈ upload_workflow ids lookup up := by
  unfold upload_workflow
  rw [List.mem_flatten]
  exact ⟨_, List.mem_map_of_mem _ hi, he⟩

/-- Bounds for the keyword-count confidence formula of
`analyze_comment_sentiment`. -/
theorem sentiment_conf_bounds (a b : ℕ) (h : b < a) :
    0 ≤ min (0.9:ℚ) (0.5 + (((a:ℚ) - b) * 0.1)) ∧
    min (0.9:ℚ) (0.5 + (((a:ℚ) - b) * 0.1)) ≤ 1 := by
  have hd : (0:ℚ) ≤ (a:ℚ) - b := sub_nonneg.mpr (by exact_mod_cast h.le)
  constructor
  · exact le_min (by norm_num) (by nlinarith)
  · exact (min_le_left _ _).trans (by norm_num)

/-! ## Claim theorems -/

/-- Claim C3: `upload_song_to_youtube` passes a video id to the status
update exactly when it sets status `uploaded`; the `failed` and
`url_expired` updates carry none.  Stated over every status update the
tool emits, for any song record and any upload outcome. -/
theorem claim_C3_video_id_iff_uploaded (song_id : String)
    (title description : Option String) (tags : Option (List String))
    (lookup : Option SongRecord) (up : UploadOutcome) (s st : String) (v : Option String)
    (hmem : Effect.statusUpdate s st v ∈
      (upload_song_to_youtube song_id title description tags lookup up).2) :
    v ≠ none ↔ st = "uploaded" := by
  cases lookup with
  | none => simp [upload_song_to_youtube] at hmem
  | some rec =>
    unfold upload_song_to_youtube at hmem
    dsimp only at hmem
    by_cases hurl : pyTruthy rec.video_url = true
    · rw [hurl] at hmem
      simp only [Bool.not_true, Bool.false_eq_true, if_false] at hmem
      cases up with
      | raises m =>
        by_cases hq : isQuotaMsg m = true
        · simp only [hq, if_true] at hmem
          simp at hmem
          obtain ⟨_, hst, hv⟩ := hmem
          subst hst; subst hv; simp
        · simp only [hq, if_false] at hmem
          simp at hmem
      | returns r =>
        by_cases he : r = some "URL_EXPIRED"
        · simp only [he, if_pos rfl] at hmem
          simp at hmem
          obtain ⟨_, hst, hv⟩ := hmem
          subst hst; subst hv; simp
        · by_cases ht : pyTruthy r = true
          · simp only [if_neg he, ht, if_true] at hmem
            simp at hmem
            obtain ⟨_, hst, hv⟩ := hmem
            subst hst; subst hv; simp
          · simp only [if_neg he, ht, Bool.false_eq_true, if_false] at hmem
            simp at hmem
            obtain ⟨_, hst, hv⟩ := hmem
            subst hst; subst hv; simp
    · simp only [Bool.not_eq_true] at hurl
      rw [hurl] at hmem
      simp at hmem

/-- Witness for C3: the successful upload of a concrete song emits the
`uploaded` update carrying a video id, and the theorem applies to it. -/
theorem claim_C3_witness :
    (some "vid123" : Option String) ≠ none ↔ "uploaded" = "uploaded" :=
  claim_C3_video_id_iff_uploaded "s1" none none none
    (some ⟨some "T", none, none, some "D", some "http://u"⟩) (.returns (some "vid123"))
    "s1" "uploaded" (some "vid123") (by decide)

/-- Claim C5: for any input song metadata, `suggest_video_tags` returns at
most 10 tags, with no duplicates, keeping a subsequence of the raw tag
stream (order preserved) — namely a prefix of its first-occurrence
de-duplication; the exception-path fallback list satisfies the cap and
no-duplicates bounds as well. -/
theorem claim_C5_tag_cap (song : SongRecord) :
    (suggest_video_tags song).length ≤ 10 ∧
    (suggest_video_tags song).Nodup ∧
    (suggest_video_tags song).Sublist (rawTags song) ∧
    (suggest_video_tags song).IsPrefix (dedupFirst (rawTags song)) ∧
    suggest_video_tags_fallback.length ≤ 10 ∧ suggest_video_tags_fallback.Nodup := by
  refine ⟨List.length_take_le _ _, ?_, ?_, List.take_prefix _ _, by decide, by decide⟩
  · exact (dedupFirst_nodup _).sublist (List.take_sublist _ _)
  · exact (List.take_sublist _ _).trans (dedupFirst_sublist _)

/-- Claim C6: on the `URL_EXPIRED` sentinel, the tool returns the expiry
error string (it does not raise) and its only status update sets
`url_expired` with no video id, so a batch driver can continue with the
next song. -/
theorem claim_C6_url_expired (song_id : String) (title description : Option String)
    (tags : Option (List String)) (rec : SongRecord)
    (hurl : pyTruthy rec.video_url = true) :
    (upload_song_to_youtube song_id title description tags (some rec)
        (.returns (some "URL_EXPIRED"))).1 =
      "Error: Video URL expired for song " ++ song_id ∧
    statusUpdatesOf (upload_song_to_youtube song_id title description tags (some rec)
        (.returns (some "URL_EXPIRED"))).2 = [(song_id, "url_expired", none)] := by
  unfold upload_song_to_youtube
  dsimp only
  rw [hurl]
  simp only [Bool.not_true, Bool.false_eq_true, if_false, if_pos rfl]
  exact ⟨rfl, by simp [statusUpdatesOf]⟩

/-- Witness for C6 at a concrete song. -/
theorem claim_C6_witness :
    (upload_song_to_youtube "s3" none none none
        (some ⟨some "T", none, none, some "D", some "http://u3"⟩)
        (.returns (some "URL_EXPIRED"))).1 = "Error: Video URL expired for song " ++ "s3" ∧
    statusUpdatesOf (upload_song_to_youtube "s3" none none none
        (some ⟨some "T", none, none, some "D", some "http://u3"⟩)
        (.returns (some "URL_EXPIRED"))).2 = [("s3", "url_expired", none)] :=
  claim_C6_url_expired "s3" none none none
    ⟨some "T", none, none, some "D", some "http://u3"⟩ (by decide)

/-- Claim C7 (amended): on every string input the sentiment analysis
succeeds with a label in {positive, negative, neutral} and a confidence in
[0,1]; when the analysis body fails, the exception handler returns label
`error` with no confidence field (not `neutral`/0.5) instead of raising. -/
theorem claim_C7_amended (comment_text msg : String) :
    ((analyze_comment_sentiment comment_text).sentiment = "positive" ∨
      (analyze_comment_sentiment comment_text).sentiment = "negative" ∨
      (analyze_comment_sentiment comment_text).sentiment = "neutral") ∧
    (∃ q : ℚ, (analyze_comment_sentiment comment_text).confidence = some q ∧
      0 ≤ q ∧ q ≤ 1) ∧
    (analyze_comment_sentiment_onError comment_text msg).sentiment = "error" := by
  refine ⟨?_, ?_, rfl⟩
  · unfold analyze_comment_sentiment
    dsimp only
    split_ifs <;> simp
  · unfold analyze_comment_sentiment
    dsimp only
    split_ifs with h1 h2
    · obtain ⟨hlo, hhi⟩ := sentiment_conf_bounds _ _ h1
      exact ⟨_, rfl, hlo, hhi⟩
    · obtain ⟨hlo, hhi⟩ := sentiment_conf_bounds _ _ h2
      exact ⟨_, rfl, hlo, hhi⟩
    · exact ⟨0.5, rfl, by norm_num, by norm_num⟩

/-- Counterexample for C7 as stated: on the failure path the result is
label `error`, not `neutral`, and its confidence is absent, not 0.5. -/
theorem claim_C7_counterexample :
    (analyze_comment_sentiment_onError "Great song!" "AttributeError").sentiment = "error" ∧
    (analyze_comment_sentiment_onError "Great song!" "AttributeError").sentiment ≠ "neutral" ∧
    (analyze_comment_sentiment_onError "Great song!" "AttributeError").confidence ≠
      some (0.5 : ℚ) :=
  ⟨rfl, by decide, by simp [analyze_comment_sentiment_onError]⟩

/-- Claim C8: fetching comments never fails — a raised fetch yields `[]`,
a video with no comments yields `[]`, and otherwise the client's list is
returned as-is. -/
theorem claim_C8_fetch_total (msg : String) (comments : List Comment) :
    fetch_youtube_comments (.error msg) = [] ∧
    fetch_youtube_comments (.ok ([] : List Comment)) = [] ∧
    fetch_youtube_comments (.ok comments) = comments :=
  ⟨rfl, rfl, rfl⟩

/-- Claim C9: when the song record cannot be retrieved, or it has no
truthy video URL, the tool returns an error string and emits no effects at
all — no upload call and no status update, so the stored song state is
unchanged. -/
theorem claim_C9_no_url_no_effects (song_id : String) (title description : Option String)
    (tags : Option (List String)) (up : UploadOutcome) (rec : SongRecord)
    (hurl : pyTruthy rec.video_url = false) :
    upload_song_to_youtube song_id title description tags none up =
      ("Error: Could not retrieve song data for " ++ song_id, []) ∧
    upload_song_to_youtube song_id title description tags (some rec) up =
      ("Error: No video URL found for song " ++ song_id, []) := by
  refine ⟨rfl, ?_⟩
  unfold upload_song_to_youtube
  dsimp only
  rw [hurl]
  simp

/-- Witness for C9 at a concrete song with an empty URL. -/
theorem claim_C9_witness :
    upload_song_to_youtube "s4" none none none none (.returns (some "x")) =
      ("Error: Could not retrieve song data for " ++ "s4", []) ∧
    upload_song_to_youtube "s4" none none none (some ⟨some "T", none, none, none, some ""⟩)
        (.returns (some "x")) =
      ("Error: No video URL found for song " ++ "s4", []) :=
  claim_C9_no_url_no_effects "s4" none none none (.returns (some "x"))
    ⟨some "T", none, none, none, some ""⟩ (by decide)

/-- Claim C10: whenever the stored `gpt_description` is non-empty,
`generate_song_description` returns it verbatim, whatever the song's
`style` and `lyrics` fields hold. -/
theorem claim_C10_gpt_description (song : SongRecord) (s l : Option String)
    (h : song.gpt_description.getD "" ≠ "") :
    generate_song_description { song with style := s, lyrics := l } =
      song.gpt_description.getD "" := by
  simp [generate_song_description, h]

/-- Witness for C10: a concrete song whose stored description wins over
style and lyrics. -/
theorem claim_C10_witness :
    generate_song_description
      { (⟨some "T", some "oldstyle", some "oldlyrics", some "GPT DESC", none⟩ : SongRecord)
        with style := some "rock", lyrics := some "la la" } =
      (⟨some "T", some "oldstyle", some "oldlyrics", some "GPT DESC", none⟩ :
        SongRecord).gpt_description.getD "" :=
  claim_C10_gpt_description ⟨some "T", some "oldstyle", some "oldlyrics", some "GPT DESC", none⟩
    (some "rock") (some "la la") (by decide)

/-! ## Fixtures for concrete batches -/

/-- A concrete three-song database for batch tests. -/
def lookupBatch : String → Option SongRecord := fun i =>
  if i = "s1" then some ⟨some "T1", none, none, some "D1", some "http://u1"⟩
  else if i = "s2" then some ⟨some "T2", none, none, some "D2", some "http://u2"⟩
  else if i = "s3" then some ⟨some "T3", none, none, some "D3", some "http://u3"⟩
  else none

/-- Concrete upload outcomes: the second song hits the daily quota. -/
def upBatch : String → UploadOutcome := fun i =>
  if i = "s2" then .raises "uploadLimitExceeded: daily cap reached"
  else .returns (some ("vid-" ++ i))

/-- A concrete per-comment environment where everything succeeds. -/
def envOkC : String → CEnv := fun _ =>
  ⟨true, .returns (some "Thanks for listening!"), .returns (some "r1")⟩

/-- A concrete per-comment environment where response generation raises
but the reply call succeeds. -/
def envGenFails : String → CEnv := fun _ =>
  ⟨true, .raises "OpenAI API unavailable", .returns (some "reply-id-9")⟩

/-- Counterexample for C1 as stated: in a concrete batch of three songs
where the second upload raises a quota-exceeded error, the second song's
status is set to `failed` (it does not stay `pending`), and the third
song's upload is still attempted (the batch is not aborted). -/
theorem claim_C1_counterexample :
    Effect.statusUpdate "s2" "failed" none ∈
      upload_workflow ["s1", "s2", "s3"] lookupBatch upBatch ∧
    Effect.uploadCall "http://u3" "T3" "D3" [] ∈
      upload_workflow ["s1", "s2", "s3"] lookupBatch upBatch := by
  decide

/-- Claim C1 (amended): when a song's upload raises a quota-exceeded
error, the tool sets that song's status to `failed` (with no video id) and
returns the quota error string, and the batch driver continues: every song
of the batch with retrievable data and a truthy video URL still gets its
upload attempted. -/
theorem claim_C1_amended_quota (ids : List String) (lookup : String → Option SongRecord)
    (up : String → UploadOutcome) (i : String) (rec : SongRecord) (m : String)
    (hi : i ∈ ids) (hrec : lookup i = some rec) (hurl : pyTruthy rec.video_url = true)
    (hup : up i = .raises m) (hq : isQuotaMsg m = true) :
    (upload_song_to_youtube i none none none (lookup i) (up i)).1 =
      "Error: YouTube upload limit exceeded" ∧
    Effect.statusUpdate i "failed" none ∈ upload_workflow ids lookup up ∧
    (∀ j rec2, j ∈ ids → lookup j = some rec2 → pyTruthy rec2.video_url = true →
      ∃ t d tg, Effect.uploadCall (rec2.video_url.getD "") t d tg ∈
        upload_workflow ids lookup up) := by
  obtain ⟨u, t, d, tg, heq⟩ := upload_song_quota i none none none rec m hurl hq
  refine ⟨?_, ?_, ?_⟩
  · rw [hrec, hup, heq]
  · exact mem_upload_workflow ids lookup up i hi _ (by rw [hrec, hup, heq]; simp)
  · intro j rec2 hj hrec2 hurl2
    obtain ⟨t2, d2, tg2, rest, hval⟩ :=
      upload_song_call_head j none none none rec2 (up j) hurl2
    refine ⟨t2, d2, tg2, mem_upload_workflow ids lookup up j hj _ ?_⟩
    rw [hrec2, hval]
    exact List.mem_cons_self _ _

/-- Witness for the amended C1: the concrete batch, with the third song's
upload-call membership extracted at `j := "s3"`. -/
theorem claim_C1_amended_witness :
    (upload_song_to_youtube "s2" none none none (lookupBatch "s2") (upBatch "s2")).1 =
      "Error: YouTube upload limit exceeded" ∧
    Effect.statusUpdate "s2" "failed" none ∈
      upload_workflow ["s1", "s2", "s3"] lookupBatch upBatch ∧
    ∃ t d tg, Effect.uploadCall ((some "http://u3" : Option String).getD "") t d tg ∈
      upload_workflow ["s1", "s2", "s3"] lookupBatch upBatch := by
  have h := claim_C1_amended_quota ["s1", "s2", "s3"] lookupBatch upBatch "s2"
    ⟨some "T2", none, none, some "D2", some "http://u2"⟩
    "uploadLimitExceeded: daily cap reached"
    (by decide) (by decide) (by decide) (by decide) (by decide)
  exact ⟨h.1, h.2.1, h.2.2 "s3" ⟨some "T3", none, none, some "D3", some "http://u3"⟩
    (by decide) (by decide) (by decide)⟩

/-- Claim C2: a comment whose id already has a feedback record, or which
carries the has-our-reply flag, is skipped entirely — no feedback stored,
no reply call, counter untouched; and across any sequence of workflow runs
threading the feedback table, at most one reply call is ever issued per
comment id. -/
theorem claim_C2_at_most_one_reply (existing fb db : List String) (env : String → CEnv)
    (c : Comment) (count : Nat) (rs : List RunInput) (cid : String)
    (hskip : c.comment_id ∈ existing ∨ c.has_our_reply = true) :
    processStep existing env c fb count = (fb, count, []) ∧
    replyCallCount cid (runsAll rs db).2 ≤ 1 :=
  ⟨processStep_skip existing env c fb count hskip, (runsAll_at_most_once cid rs db).1⟩

/-- Witness for C2: a concrete already-recorded comment and two identical
runs over it. -/
theorem claim_C2_witness :
    processStep ["c1"] envOkC ⟨"c1", "love it", false⟩ ["c1"] 0 = (["c1"], 0, []) ∧
    replyCallCount "c1" (runsAll
      [⟨[⟨"c1", "love it", false⟩], envOkC, 10⟩,
       ⟨[⟨"c1", "love it", false⟩], envOkC, 10⟩] []).2 ≤ 1 :=
  claim_C2_at_most_one_reply ["c1"] ["c1"] [] envOkC ⟨"c1", "love it", false⟩ 0
    [⟨[⟨"c1", "love it", false⟩], envOkC, 10⟩,
     ⟨[⟨"c1", "love it", false⟩], envOkC, 10⟩] "c1" (Or.inl (by decide))

/-- Counterexample for C4 as stated: when response generation raises, the
error message is a non-empty (truthy) string, so the reply is still
attempted; if that reply call succeeds the counter is incremented — here a
single comment with failing generation yields `processed_count = 1`. -/
theorem claim_C4_counterexample :
    (envGenFails "c9").gen = .raises "OpenAI API unavailable" ∧
    process_video_comments [] [⟨"c9", "nice track", false⟩] envGenFails 5 =
      (1, ["c9"], [⟨"c9", true⟩]) :=
  ⟨rfl, by decide⟩

/-- Claim C4 (amended): the count returned by `process_video_comments`
equals the number of reply calls that passed the success test during that
call — incremented exactly on reply-call success, even when response
generation failed (its error text is posted as the reply) — and never
exceeds `max_replies`. -/
theorem claim_C4_amended_count (db : List String) (comments : List Comment)
    (env : String → CEnv) (max_replies : Nat) :
    (process_video_comments db comments env max_replies).1 =
      ((process_video_comments db comments env max_replies).2.2.filter
        (fun e => e.success)).length ∧
    (process_video_comments db comments env max_replies).1 ≤ max_replies := by
  have h := processGo_count db env max_replies comments db 0
  exact ⟨by simpa using h.1, h.2 (Nat.zero_le _)⟩

end Angus
